import Mathlib

/-!
# VoiceForge Studio — verification of the boundary layer

Shallow embedding of the core of the VoiceForge Studio TTS repository:
the data-URI codec, the Python backend endpoints (`/api/tts`,
`/api/train-voice` from `PYTHON_BACKEND_GUIDE.md`), the Next.js flow
wrappers, the client-side voice registry (`page.tsx`), and the UI file
check (`voice-trainer.tsx`).

Bytes are modelled as `List Nat` with values `< 256`; JavaScript/Python
floats as `ℚ` (the only operations performed on them are comparisons with
exactly representable constants); fallible code returns `Option`/`Except`.
-/

namespace VoiceForge

/-! ## Data-URI codec

Embeds `decode_data_uri` / `encode_audio_to_data_uri` from
`PYTHON_BACKEND_GUIDE.md` §4.1, together with a model of Python's
`base64.b64encode` / `base64.b64decode` (default `validate=False`, which
discards characters outside the base64 alphabet before the padding check).
-/

/-- The standard base64 alphabet: value `n < 64` to character. -/
def b64Char (n : Nat) : Char :=
  if n < 26 then Char.ofNat (65 + n)
  else if n < 52 then Char.ofNat (97 + (n - 26))
  else if n < 62 then Char.ofNat (48 + (n - 52))
  else if n = 62 then '+'
  else '/'

/-- Membership in the standard base64 alphabet. -/
def isB64Char (c : Char) : Bool :=
  (65 ≤ c.toNat && c.toNat ≤ 90) || (97 ≤ c.toNat && c.toNat ≤ 122) ||
  (48 ≤ c.toNat && c.toNat ≤ 57) || c == '+' || c == '/'

/-- Character to base64 value (total; meaningful on the alphabet). -/
def b64Value (c : Char) : Nat :=
  if 65 ≤ c.toNat && c.toNat ≤ 90 then c.toNat - 65
  else if 97 ≤ c.toNat && c.toNat ≤ 122 then c.toNat - 97 + 26
  else if 48 ≤ c.toNat && c.toNat ≤ 57 then c.toNat - 48 + 52
  else if c == '+' then 62
  else 63

/-- `base64.b64encode`: bytes to base64 characters, 3 bytes → 4 chars,
with `=` padding exactly as the Python standard library produces it. -/
def b64EncodeChars : List Nat → List Char
  | [] => []
  | [a] => [b64Char (a / 4), b64Char (a % 4 * 16), '=', '=']
  | [a, b] => [b64Char (a / 4), b64Char (a % 4 * 16 + b / 16), b64Char (b % 16 * 4), '=']
  | a :: b :: c :: rest =>
      b64Char (a / 4) :: b64Char (a % 4 * 16 + b / 16) ::
      b64Char (b % 16 * 4 + c / 64) :: b64Char (c % 64) :: b64EncodeChars rest

/-- The non-padding characters of the encoding (proof helper). -/
def b64Core : List Nat → List Char
  | [] => []
  | [a] => [b64Char (a / 4), b64Char (a % 4 * 16)]
  | [a, b] => [b64Char (a / 4), b64Char (a % 4 * 16 + b / 16), b64Char (b % 16 * 4)]
  | a :: b :: c :: rest =>
      b64Char (a / 4) :: b64Char (a % 4 * 16 + b / 16) ::
      b64Char (b % 16 * 4 + c / 64) :: b64Char (c % 64) :: b64Core rest

/-- The padding suffix of the encoding (proof helper). -/
def b64Pad : List Nat → List Char
  | [] => []
  | [_] => ['=', '=']
  | [_, _] => ['=']
  | _ :: _ :: _ :: rest => b64Pad rest

/-- Decoding of the data characters (after padding has been stripped):
groups of 4 characters → 3 bytes, a trailing group of 2 or 3 characters
→ 1 or 2 bytes (low leftover bits dropped, as `binascii` does); a
trailing group of a single character is an error. -/
def b64DecodeMain : List Char → Option (List Nat)
  | [] => some []
  | [_] => none
  | [w, x] => some [b64Value w * 4 + b64Value x / 16]
  | [w, x, y] =>
      some [b64Value w * 4 + b64Value x / 16, b64Value x % 16 * 16 + b64Value y / 4]
  | w :: x :: y :: z :: rest =>
      (b64DecodeMain rest).map fun tail =>
        (b64Value w * 4 + b64Value x / 16) ::
        (b64Value x % 16 * 16 + b64Value y / 4) ::
        (b64Value y % 4 * 64 + b64Value z) :: tail

/-- `base64.b64decode` with the default `validate=False`: characters
outside the alphabet (other than `=`) are discarded, then the data must
reach a 4-character boundary with the padding that follows it, or the
call raises (here: `none`). -/
def pyB64Decode (s : List Char) : Option (List Nat) :=
  let cs := s.filter fun c => isB64Char c || c == '='
  let main := cs.takeWhile fun c => c != '='
  let pads := ((cs.drop main.length).takeWhile fun c => c == '=').length
  if (main.length + pads) % 4 == 0 then b64DecodeMain main else none

/-- First-occurrence split: `some (before, after)` at the first `c`,
`none` when `c` is absent. Models Python `s.split(c, 1)` destructured
into exactly two pieces (which raises when the separator is absent). -/
def splitOnceAt (c : Char) : List Char → Option (List Char × List Char)
  | [] => none
  | x :: xs =>
      if x = c then some ([], xs)
      else (splitOnceAt c xs).map fun p => (x :: p.1, p.2)

/-- Prefix up to (excluding) the first `c`: Python `s.split(c)[0]`. -/
def takeUntil (c : Char) (l : List Char) : List Char :=
  l.takeWhile fun x => x != c

/-- Python `s.split(c)[1]`: the segment after the first `c` up to the
next `c`; `none` (IndexError) when `c` does not occur. -/
def pySplitIdx1 (c : Char) (l : List Char) : Option (List Char) :=
  (splitOnceAt c l).map fun p => takeUntil c p.2

/-- `decode_data_uri` (PYTHON_BACKEND_GUIDE.md §4.1):
`header, encoded = data_uri.split(',', 1)`;
`mime_type = header.split(';')[0].split(':')[1]`;
`data = base64.b64decode(encoded)`; any exception becomes `ValueError`
(here: `none`). -/
def decode_data_uri (dataUri : String) : Option (List Nat × String) :=
  (splitOnceAt ',' dataUri.data).bind fun headerEncoded =>
    (pySplitIdx1 ':' (takeUntil ';' headerEncoded.1)).bind fun mime =>
      (pyB64Decode headerEncoded.2).map fun bytes => (bytes, String.mk mime)

/-- `encode_audio_to_data_uri` (PYTHON_BACKEND_GUIDE.md §4.1):
`f"data:{mime_type};base64,{base64.b64encode(audio_bytes)}"`. -/
def encode_audio_to_data_uri (audioBytes : List Nat) (mimeType : String) : String :=
  String.mk ("data:".data ++ mimeType.data ++ ";base64,".data ++ b64EncodeChars audioBytes)

/-! ## Synthesis pipeline

Embeds the FastAPI endpoint `generate_tts_endpoint` (PYTHON_BACKEND_GUIDE.md
§4.2), including FastAPI's Pydantic validation of `TTSRequest` which runs
before the handler, and the Next.js flow `generateSpeechFlow` from the
real-API variant (`src/unnamed/part_000`), which posts the request and
checks the returned `audioDataUri`.

The external Coqui engine (`tts_instance.tts_to_file`) is a parameter
`engine : EngineCall → List Nat` returning raw audio bytes; the model
assumes `tts_instance` loaded (the 503 guard is outside every claim).
Pipelines return the list of engine calls actually issued alongside the
result, so "no engine call" is statable.
-/

/-- JavaScript `String.prototype.startsWith` / Python `str.startswith`,
modelled on the character list. -/
def strStartsWith (s pre : String) : Bool :=
  pre.data.isPrefixOf s.data

/-- An HTTP-level failure: status code and detail string. -/
inductive BackendError where
  | http : Nat → String → BackendError
deriving DecidableEq, Repr

/-- Body of `POST /api/tts` (Pydantic `TTSRequest` / Zod
`GenerateSpeechInputSchema`): `speed` and `variability` are optional with
defaults 1.0 and 0.5. Floats are modelled as `ℚ`. -/
structure TTSRequest where
  text : String
  voiceId : String
  speed : Option ℚ := none
  variability : Option ℚ := none
deriving DecidableEq, Repr

/-- Pydantic validation of `TTSRequest`:
`speed: Optional[float] = Field(1.0, ge=0.5, le=2.0)`,
`variability: Optional[float] = Field(0.5, ge=0.0, le=1.0)`;
`text` and `voiceId` are unconstrained strings. FastAPI rejects the
request with status 422 before the handler runs when this fails. -/
def ttsRequestValid (r : TTSRequest) : Bool :=
  (match r.speed with
   | none => true
   | some s => decide ((1 : ℚ)/2 ≤ s) && decide (s ≤ 2)) &&
  (match r.variability with
   | none => true
   | some v => decide ((0 : ℚ) ≤ v) && decide (v ≤ 1))

/-- Response body of `POST /api/tts`. -/
structure TTSResponse where
  audioDataUri : String
deriving DecidableEq, Repr

/-- One invocation of `tts_instance.tts_to_file`: the handler passes the
request text, the resolved `speaker_wav` (or `None`), and the speed.
`variability` is not passed — the code ignores it for XTTS. -/
structure EngineCall where
  text : String
  speakerWav : Option String
  speed : ℚ
deriving DecidableEq, Repr

/-- `MODEL_STORAGE_PATH` from the backend configuration. -/
def MODEL_STORAGE_PATH : String := "trained_models"

/-- Speaker resolution in `generate_tts_endpoint`: ids starting with
`default-` use the engine's internal default (`speaker_wav = None`);
any other id is treated as a trained model folder and the first of
`reference.wav` / `reference.mp3` / `reference.ogg` that exists in
storage is used. When none exists the code only prints a warning and
leaves `speaker_wav_for_tts = None` (the `HTTPException` is commented
out), so resolution never fails. -/
def resolveSpeaker (storage : List String) (voiceId : String) : Option String :=
  if strStartsWith voiceId "default-" then none
  else
    let path := fun (ext : String) =>
      MODEL_STORAGE_PATH ++ "/" ++ voiceId ++ "/reference." ++ ext
    if path "wav" ∈ storage then some (path "wav")
    else if path "mp3" ∈ storage then some (path "mp3")
    else if path "ogg" ∈ storage then some (path "ogg")
    else none

/-- The arguments the handler passes to `tts_instance.tts_to_file` for a
given request: its text, the resolved speaker, and the speed (Pydantic's
default 1.0 when absent). -/
def engineCallOf (storage : List String) (r : TTSRequest) : EngineCall :=
  { text := r.text, speakerWav := resolveSpeaker storage r.voiceId
    speed := r.speed.getD 1 }

/-- The body of `generate_tts_endpoint` after validation: resolve the
speaker, call the engine, fail with 500 when no audio bytes were
produced, else encode the bytes as an `audio/wav` data URI. -/
def ttsHandler (storage : List String) (engine : EngineCall → List Nat)
    (r : TTSRequest) : Except BackendError TTSResponse × List EngineCall :=
  let call := engineCallOf storage r
  let audioBytes := engine call
  if audioBytes.isEmpty then
    (.error (.http 500 "TTS generation failed: No audio data produced."), [call])
  else
    (.ok ⟨encode_audio_to_data_uri audioBytes "audio/wav"⟩, [call])

/-- `POST /api/tts` as served by FastAPI: Pydantic validation (422 on
violation, handler never entered) and then the handler body. -/
def generate_tts_endpoint (storage : List String) (engine : EngineCall → List Nat)
    (r : TTSRequest) : Except BackendError TTSResponse × List EngineCall :=
  if ttsRequestValid r then ttsHandler storage engine r
  else (.error (.http 422 "request validation failed"), [])

/-- Result of the Next.js flow `generateSpeechFlow`
(`src/unnamed/part_000`) given the backend's response: a non-ok status
becomes a thrown error; an ok response is checked to start with
`data:audio` and otherwise rejected. -/
def generateSpeechFlowResult (backendResult : Except BackendError TTSResponse) :
    Except String TTSResponse :=
  match backendResult with
  | .error (.http status errorBody) =>
      .error ("External TTS API request failed with status " ++
        toString status ++ ": " ++ errorBody)
  | .ok result =>
      if strStartsWith result.audioDataUri "data:audio" then .ok result
      else .error "Invalid audioDataUri received from external TTS API."

/-- The full synthesis path: Next.js `generateSpeech` → `POST /api/tts`
→ engine, returning the flow result and the engine calls issued. -/
def synthesizePipeline (storage : List String) (engine : EngineCall → List Nat)
    (input : TTSRequest) : Except String TTSResponse × List EngineCall :=
  let res := generate_tts_endpoint storage engine input
  (generateSpeechFlowResult res.1, res.2)

/-! ## Training pipeline

Embeds `train_voice_endpoint` (PYTHON_BACKEND_GUIDE.md §4.3) and the
client-side file check `handleFileChange` (`voice-trainer.tsx`). The
`uuid.uuid4().hex[:6]` suffix is a parameter. Storage writes are returned
explicitly as `(path, bytes)` pairs.
-/

/-- ASCII fragment of Python `str.isalnum`. -/
def pyIsAlnum (c : Char) : Bool := c.isAlpha || c.isDigit

/-- ASCII fragment of Python `str.isspace` (the characters stripped by
`str.strip()`). -/
def pyIsSpace (c : Char) : Bool :=
  c == ' ' || c == '\t' || c == '\n' || c == '\r' || c == '\x0b' || c == '\x0c'

/-- Python `str.strip()`. -/
def pyStrip (l : List Char) : List Char :=
  ((l.dropWhile pyIsSpace).reverse.dropWhile pyIsSpace).reverse

/-- Model-name sanitization in `train_voice_endpoint`:
`"".join(c if c.isalnum() or c in (' ', '_', '-') else '_' for c in name)`
then `.strip()`, then `.replace(' ', '_')`, collapsing an empty result
to `"unnamed_model"`. -/
def saneModelName (name : String) : String :=
  let joined := name.data.map fun c =>
    if pyIsAlnum c || c == ' ' || c == '_' || c == '-' then c else '_'
  let stripped := pyStrip joined
  let replaced := stripped.map fun c => if c == ' ' then '_' else c
  if replaced.isEmpty then "unnamed_model" else String.mk replaced

/-- `model_id = f"{sane_model_name}_{uuid.uuid4().hex[:6]}"` with the
random hex suffix as a parameter. -/
def mintedModelId (modelName suffix : String) : String :=
  saneModelName modelName ++ "_" ++ suffix

/-- ASCII fragment of Python `str.lower`, on the character list. -/
def pyLower (s : String) : String :=
  String.mk (s.data.map Char.toLower)

/-- `extension_map` in `train_voice_endpoint`, applied to the lowercased
MIME type; unknown types fall back to `"wav"` with only a warning. -/
def extensionFor (mime : String) : String :=
  let m := pyLower mime
  if m = "audio/wav" then "wav"
  else if m = "audio/mpeg" then "mp3"
  else if m = "audio/mp3" then "mp3"
  else if m = "audio/ogg" then "ogg"
  else "wav"

/-- Body of `POST /api/train-voice`. -/
structure TrainVoiceRequest where
  modelName : String
  audioDataUri : String
deriving DecidableEq, Repr

/-- Response body of `POST /api/train-voice`. -/
structure TrainVoiceResponse where
  trainingStatus : String
  modelId : Option String := none
deriving DecidableEq, Repr

/-- `train_voice_endpoint` (PYTHON_BACKEND_GUIDE.md §4.3): decode the
data URI (`ValueError` → 400), require the MIME type to start with
`audio/` (else 400), sanitize the model name, mint
`model_id = sane_model_name + "_" + suffix`, and write the bytes to
`trained_models/<model_id>/reference.<ext>`; training status is always
`"completed"`. `suffix` stands for `uuid.uuid4().hex[:6]`. The second
component lists the storage writes performed. -/
def train_voice_endpoint (suffix : String) (r : TrainVoiceRequest) :
    Except BackendError TrainVoiceResponse × List (String × List Nat) :=
  match decode_data_uri r.audioDataUri with
  | none => (.error (.http 400 "Invalid data URI format"), [])
  | some (audioBytes, mimeType) =>
      if ¬ strStartsWith mimeType "audio/" then
        (.error (.http 400 ("Invalid audio file type: " ++ mimeType ++
          ". Please use WAV or MP3.")), [])
      else
        let modelId := mintedModelId r.modelName suffix
        let refPath := MODEL_STORAGE_PATH ++ "/" ++ modelId ++ "/reference." ++
          extensionFor mimeType
        (.ok { trainingStatus := "completed", modelId := some modelId },
         [(refPath, audioBytes)])

/-- A file as seen by the browser file input. -/
structure UploadedFile where
  name : String
  size : Nat
  mimeType : String
deriving DecidableEq, Repr

/-- The client-side check in `handleFileChange` (`voice-trainer.tsx`):
files over 5MB (`size > 5 * 1024 * 1024`) or with a type outside
`['audio/wav', 'audio/mpeg', 'audio/mp3']` are refused (toast + input
reset, `none`); accepted files become the upload candidate. -/
def handleFileChange (file : UploadedFile) : Option UploadedFile :=
  if file.size > 5 * 1024 * 1024 then none
  else if ¬ (file.mimeType = "audio/wav" ∨ file.mimeType = "audio/mpeg" ∨
      file.mimeType = "audio/mp3") then none
  else some file

/-! ## Client-side voice registry

Embeds the `Voice` type, `initialVoices`, and `addVoice` from
`src/src/app/page.tsx`.
-/

/-- `Voice` from `page.tsx`. -/
structure Voice where
  id : String
  name : String
deriving DecidableEq, Repr

/-- The built-in voices (`initialVoices` in `page.tsx`). -/
def initialVoices : List Voice :=
  [⟨"default-male", "Стандартный мужской"⟩,
   ⟨"default-female", "Стандартный женский"⟩]

/-- `addVoice` in `page.tsx`: a new voice whose id already occurs is
silently ignored (the list is returned unchanged, no error is surfaced);
otherwise it is appended. -/
def addVoice (prevVoices : List Voice) (newVoice : Voice) : List Voice :=
  if prevVoices.any fun v => v.id == newVoice.id then prevVoices
  else prevVoices ++ [newVoice]

/-! ## Placeholder generation flow

Embeds `generateSpeechFlow` from `src/src/ai/flows/voice-generation.ts`
(the stub variant): it performs no fetch and no engine call — its body is
a single constant — and returns a fixed data URI for every input.
-/

/-- The hardcoded placeholder data URI in `voice-generation.ts`. -/
def placeholderAudioDataUri : String :=
  "data:audio/wav;base64,UklGRiwAAABXQVZFZm10IBAAAAABAAEARKwAAIhUAAABAAgAZGF0YQAAAAA="

/-- The placeholder `generateSpeechFlow` (`voice-generation.ts`): a pure
constant function of its input. -/
def placeholderGenerateSpeechFlow (_input : TTSRequest) : TTSResponse :=
  ⟨placeholderAudioDataUri⟩

/-! ## Lemmas: base64 round trip -/

/-- Induction principle following the 3-byte chunking of the encoder. -/
def threeChunkInduction {motive : List Nat → Prop} (h0 : motive [])
    (h1 : ∀ a, motive [a]) (h2 : ∀ a b, motive [a, b])
    (h3 : ∀ a b c rest, motive rest → motive (a :: b :: c :: rest)) :
    ∀ B, motive B
  | [] => h0
  | [a] => h1 a
  | [a, b] => h2 a b
  | a :: b :: c :: rest =>
      h3 a b c rest (threeChunkInduction h0 h1 h2 h3 rest)

theorem b64Char_props : ∀ n, n < 64 →
    isB64Char (b64Char n) = true ∧ b64Char n ≠ '=' ∧
    b64Value (b64Char n) = n := by decide

theorem encode_filter_valid (B : List Nat) (h : ∀ b ∈ B, b < 256) :
    (b64EncodeChars B).filter (fun c => isB64Char c || c == '=') = b64EncodeChars B := by
  induction B using threeChunkInduction with
  | h0 => rfl
  | h1 a =>
      have ha : a < 256 := h a (by simp)
      have p1 := b64Char_props (a / 4) (by omega)
      have p2 := b64Char_props (a % 4 * 16) (by omega)
      simp [b64EncodeChars, List.filter_cons, p1.1, p2.1]
  | h2 a b =>
      have ha : a < 256 := h a (by simp)
      have hb : b < 256 := h b (by simp)
      have p1 := b64Char_props (a / 4) (by omega)
      have p2 := b64Char_props (a % 4 * 16 + b / 16) (by omega)
      have p3 := b64Char_props (b % 16 * 4) (by omega)
      simp [b64EncodeChars, List.filter_cons, p1.1, p2.1, p3.1]
  | h3 a b c rest ih =>
      have ha : a < 256 := h a (by simp)
      have hb : b < 256 := h b (by simp)
      have hc : c < 256 := h c (by simp)
      have hrest : ∀ x ∈ rest, x < 256 := fun x hx => h x (by simp [hx])
      have p1 := b64Char_props (a / 4) (by omega)
      have p2 := b64Char_props (a % 4 * 16 + b / 16) (by omega)
      have p3 := b64Char_props (b % 16 * 4 + c / 64) (by omega)
      have p4 := b64Char_props (c % 64) (by omega)
      simp [b64EncodeChars, List.filter_cons, p1.1, p2.1, p3.1, p4.1, ih hrest]

theorem encode_takeWhile_core (B : List Nat) (h : ∀ b ∈ B, b < 256) :
    (b64EncodeChars B).takeWhile (fun c => c != '=') = b64Core B := by
  induction B using threeChunkInduction with
  | h0 => rfl
  | h1 a =>
      have ha : a < 256 := h a (by simp)
      have p1 := b64Char_props (a / 4) (by omega)
      have p2 := b64Char_props (a % 4 * 16) (by omega)
      simp [b64EncodeChars, b64Core, List.takeWhile_cons, p1.2.1, p2.2.1]
  | h2 a b =>
      have ha : a < 256 := h a (by simp)
      have hb : b < 256 := h b (by simp)
      have p1 := b64Char_props (a / 4) (by omega)
      have p2 := b64Char_props (a % 4 * 16 + b / 16) (by omega)
      have p3 := b64Char_props (b % 16 * 4) (by omega)
      simp [b64EncodeChars, b64Core, List.takeWhile_cons, p1.2.1, p2.2.1, p3.2.1]
  | h3 a b c rest ih =>
      have ha : a < 256 := h a (by simp)
      have hb : b < 256 := h b (by simp)
      have hc : c < 256 := h c (by simp)
      have hrest : ∀ x ∈ rest, x < 256 := fun x hx => h x (by simp [hx])
      have p1 := b64Char_props (a / 4) (by omega)
      have p2 := b64Char_props (a % 4 * 16 + b / 16) (by omega)
      have p3 := b64Char_props (b % 16 * 4 + c / 64) (by omega)
      have p4 := b64Char_props (c % 64) (by omega)
      simp [b64EncodeChars, b64Core, List.takeWhile_cons, p1.2.1, p2.2.1, p3.2.1,
        p4.2.1, ih hrest]

theorem encode_eq_core_append_pad (B : List Nat) :
    b64EncodeChars B = b64Core B ++ b64Pad B := by
  induction B using threeChunkInduction with
  | h0 => rfl
  | h1 a => rfl
  | h2 a b => rfl
  | h3 a b c rest ih => simp [b64EncodeChars, b64Core, b64Pad, ih]

theorem pad_takeWhile_self (B : List Nat) :
    (b64Pad B).takeWhile (fun c => c == '=') = b64Pad B := by
  induction B using threeChunkInduction with
  | h0 => rfl
  | h1 a => rfl
  | h2 a b => rfl
  | h3 a b c rest ih => simpa [b64Pad] using ih

theorem core_pad_length (B : List Nat) :
    ((b64Core B).length + (b64Pad B).length) % 4 = 0 := by
  induction B using threeChunkInduction with
  | h0 => rfl
  | h1 a => simp [b64Core, b64Pad]
  | h2 a b => simp [b64Core, b64Pad]
  | h3 a b c rest ih => simp [b64Core, b64Pad] at ih ⊢; omega

theorem decodeMain_core (B : List Nat) (h : ∀ b ∈ B, b < 256) :
    b64DecodeMain (b64Core B) = some B := by
  induction B using threeChunkInduction with
  | h0 => rfl
  | h1 a =>
      have ha : a < 256 := h a (by simp)
      have p1 := b64Char_props (a / 4) (by omega)
      have p2 := b64Char_props (a % 4 * 16) (by omega)
      simp only [b64Core, b64DecodeMain, p1.2.2, p2.2.2, Option.some.injEq,
        List.cons.injEq, and_true]
      omega
  | h2 a b =>
      have ha : a < 256 := h a (by simp)
      have hb : b < 256 := h b (by simp)
      have p1 := b64Char_props (a / 4) (by omega)
      have p2 := b64Char_props (a % 4 * 16 + b / 16) (by omega)
      have p3 := b64Char_props (b % 16 * 4) (by omega)
      simp only [b64Core, b64DecodeMain, p1.2.2, p2.2.2, p3.2.2, Option.some.injEq,
        List.cons.injEq, and_true]
      omega
  | h3 a b c rest ih =>
      have ha : a < 256 := h a (by simp)
      have hb : b < 256 := h b (by simp)
      have hc : c < 256 := h c (by simp)
      have hrest : ∀ x ∈ rest, x < 256 := fun x hx => h x (by simp [hx])
      have p1 := b64Char_props (a / 4) (by omega)
      have p2 := b64Char_props (a % 4 * 16 + b / 16) (by omega)
      have p3 := b64Char_props (b % 16 * 4 + c / 64) (by omega)
      have p4 := b64Char_props (c % 64) (by omega)
      simp only [b64Core, b64DecodeMain, ih hrest, p1.2.2, p2.2.2, p3.2.2, p4.2.2,
        Option.map_some', Option.some.injEq, List.cons.injEq, and_true]
      omega

theorem pyB64Decode_encode (B : List Nat) (h : ∀ b ∈ B, b < 256) :
    pyB64Decode (b64EncodeChars B) = some B := by
  have hfe := encode_filter_valid B h
  have htw := encode_takeWhile_core B h
  simp only [pyB64Decode, hfe, htw]
  rw [encode_eq_core_append_pad B, List.drop_left, pad_takeWhile_self B]
  have hlen := core_pad_length B
  simp only [hlen]
  simpa using decodeMain_core B h

/-! ## Lemmas: splitting -/

theorem splitOnceAt_of_not_mem (c : Char) (l : List Char) (h : c ∉ l) :
    splitOnceAt c l = none := by
  induction l with
  | nil => rfl
  | cons x xs ih =>
      have hx : x ≠ c := fun hxc => h (hxc ▸ List.mem_cons_self x xs)
      have hxs : c ∉ xs := fun hm => h (List.mem_cons_of_mem x hm)
      simp [splitOnceAt, hx, ih hxs]

theorem splitOnceAt_append (c : Char) (xs ys : List Char) (h : c ∉ xs) :
    splitOnceAt c (xs ++ c :: ys) = some (xs, ys) := by
  induction xs with
  | nil => simp [splitOnceAt]
  | cons x xs ih =>
      have hx : x ≠ c := fun hxc => h (hxc ▸ List.mem_cons_self x xs)
      have hxs : c ∉ xs := fun hm => h (List.mem_cons_of_mem x hm)
      simp [splitOnceAt, hx, ih hxs]

theorem takeUntil_append (c : Char) (xs ys : List Char) (h : c ∉ xs) :
    takeUntil c (xs ++ c :: ys) = xs := by
  induction xs with
  | nil => simp [takeUntil]
  | cons x xs ih =>
      have hx : x ≠ c := fun hxc => h (hxc ▸ List.mem_cons_self x xs)
      have hxs : c ∉ xs := fun hm => h (List.mem_cons_of_mem x hm)
      simp [takeUntil, List.takeWhile_cons, hx] at ih ⊢
      exact ih hxs

theorem takeUntil_of_not_mem (c : Char) (l : List Char) (h : c ∉ l) :
    takeUntil c l = l := by
  induction l with
  | nil => rfl
  | cons x xs ih =>
      have hx : x ≠ c := fun hxc => h (hxc ▸ List.mem_cons_self x xs)
      have hxs : c ∉ xs := fun hm => h (List.mem_cons_of_mem x hm)
      simp [takeUntil, List.takeWhile_cons, hx] at ih ⊢
      exact ih hxs

/-! ## C1: encode/decode round trip -/

/-- **C1** (corrected). The codec round-trips for every byte sequence and
every MIME string that contains none of the separator characters `:`,
`;`, `,` consumed by `decode_data_uri`'s naive splitting:
`decode_data_uri (encode_audio_to_data_uri B M) = some (B, M)`.
(The claim's unrestricted quantification over MIME strings fails: a MIME
string containing a separator is not recovered — see the counterexample.) -/
theorem C1_roundtrip (B : List Nat) (M : String)
    (hB : ∀ b ∈ B, b < 256)
    (hM : ∀ ch ∈ M.data, ch ≠ ':' ∧ ch ≠ ';' ∧ ch ≠ ',') :
    decode_data_uri (encode_audio_to_data_uri B M) = some (B, M) := by
  obtain ⟨Ml⟩ := M
  have hMc : ',' ∉ Ml := fun hm => ((hM ',' hm).2.2) rfl
  have hMs : ';' ∉ Ml := fun hm => ((hM ';' hm).2.1) rfl
  have hMk : ':' ∉ Ml := fun hm => ((hM ':' hm).1) rfl
  have hsplit : splitOnceAt ','
      ("data:".data ++ Ml ++ ";base64,".data ++ b64EncodeChars B) =
      some ("data:".data ++ Ml ++ ";base64".data, b64EncodeChars B) := by
    have hshape : "data:".data ++ Ml ++ ";base64,".data ++ b64EncodeChars B =
        ("data:".data ++ Ml ++ ";base64".data) ++ ',' :: b64EncodeChars B := by
      have hlit : (";base64,".data : List Char) = ";base64".data ++ [','] := rfl
      rw [hlit]; simp
    rw [hshape]
    refine splitOnceAt_append ',' _ _ ?_
    intro hm
    rcases List.mem_append.mp hm with hm | hm
    · rcases List.mem_append.mp hm with hm | hm
      · revert hm; decide
      · exact hMc hm
    · revert hm; decide
  have htu : takeUntil ';' ("data:".data ++ Ml ++ ";base64".data) =
      "data:".data ++ Ml := by
    have hshape : "data:".data ++ Ml ++ ";base64".data =
        ("data:".data ++ Ml) ++ ';' :: "base64".data := by
      have hlit : (";base64".data : List Char) = ';' :: "base64".data := rfl
      rw [hlit]
    rw [hshape]
    refine takeUntil_append ';' _ _ ?_
    intro hm
    rcases List.mem_append.mp hm with hm | hm
    · revert hm; decide
    · exact hMs hm
  have hmime : pySplitIdx1 ':' ("data:".data ++ Ml) = some Ml := by
    have hshape : "data:".data ++ Ml = "data".data ++ ':' :: Ml := rfl
    rw [pySplitIdx1, hshape, splitOnceAt_append ':' _ _ (by decide)]
    simp [takeUntil_of_not_mem ':' Ml hMk]
  simp only [decode_data_uri, encode_audio_to_data_uri, hsplit, Option.some_bind,
    htu, hmime, pyB64Decode_encode B hB, Option.map_some']

/-- **C1** counterexample: for the MIME string `";"` the round trip does
not return the original pair — the MIME type decodes back as `""`. -/
theorem C1_counterexample :
    decode_data_uri (encode_audio_to_data_uri [] ";") ≠ some ([], ";") ∧
    decode_data_uri (encode_audio_to_data_uri [] ";") = some ([], "") := by
  decide

/-- **C1** witness: the round trip at concrete bytes and MIME type. -/
theorem C1_roundtrip_witness :
    decode_data_uri (encode_audio_to_data_uri [72, 105] "audio/wav") =
      some ([72, 105], "audio/wav") :=
  C1_roundtrip [72, 105] "audio/wav" (by decide) (by decide)

/-! ## C6: decode failure modes -/

/-- **C6** counterexample: `decode_data_uri` silently accepts a data URI
with an empty MIME segment, and one missing the `;base64` marker
entirely — the claim requires both to fail with `MalformedPayload`. -/
theorem C6_counterexample :
    decode_data_uri "data:;base64,QQ==" = some ([65], "") ∧
    decode_data_uri "data:audio/wav,QUJD" = some ([65, 66, 67], "audio/wav") := by
  decide

/-- **C6** (corrected). `decode_data_uri` fails exactly when the input
has no `,`, when the part of the header before its first `;` has no `:`,
or when base64 decoding of the payload fails; it does not reject an
empty MIME segment and does not require the `;base64` marker. -/
theorem C6_failure_modes :
    (∀ s : String, ',' ∉ s.data → decode_data_uri s = none) ∧
    (∀ (s : String) he, splitOnceAt ',' s.data = some he →
        ':' ∉ takeUntil ';' he.1 → decode_data_uri s = none) ∧
    (∀ (s : String) he, splitOnceAt ',' s.data = some he →
        pyB64Decode he.2 = none → decode_data_uri s = none) := by
  refine ⟨?_, ?_, ?_⟩
  · intro s h
    simp [decode_data_uri, splitOnceAt_of_not_mem ',' s.data h]
  · intro s he hsplit hcolon
    have hm : pySplitIdx1 ':' (takeUntil ';' he.1) = none := by
      simp [pySplitIdx1, splitOnceAt_of_not_mem ':' _ hcolon]
    simp [decode_data_uri, hsplit, hm]
  · intro s he hsplit hb64
    cases hpm : pySplitIdx1 ':' (takeUntil ';' he.1) <;>
      simp [decode_data_uri, hsplit, hpm, hb64]

/-- **C6** witness: a string with no comma is rejected. -/
theorem C6_failure_modes_witness : decode_data_uri "nocommahere" = none :=
  C6_failure_modes.1 "nocommahere" (by decide)

/-! ## C2: parameter validation -/

/-- **C2** counterexample: a request with empty text (and in-domain
parameters) is not rejected — the engine is called with the empty text
and the synthesized audio is returned as success, where the claim
requires failure with `InvalidParameter` before any engine call. -/
theorem C2_counterexample :
    synthesizePipeline [] (fun _ => [1]) { text := "", voiceId := "default-male" } =
      (.ok ⟨"data:audio/wav;base64,AQ=="⟩,
       [{ text := "", speakerWav := none, speed := 1 }]) := by
  rfl

/-- **C2** (corrected). Out-of-domain `speed` or `variability` make the
request fail Pydantic validation (HTTP 422 surfaced by the flow) before
any engine call; for requests passing validation the engine receives the
speed exactly (never clamped); empty text is not validated — the
concrete empty-text request succeeds. -/
theorem C2_validation :
    (∀ (storage : List String) (engine : EngineCall → List Nat) (r : TTSRequest),
      ((∃ s, r.speed = some s ∧ (s < 1/2 ∨ 2 < s)) ∨
       (∃ v, r.variability = some v ∧ (v < 0 ∨ 1 < v))) →
      synthesizePipeline storage engine r =
        (.error "External TTS API request failed with status 422: request validation failed",
         [])) ∧
    (∀ (storage : List String) (engine : EngineCall → List Nat) (r : TTSRequest),
      ttsRequestValid r = true →
      (synthesizePipeline storage engine r).2 = [engineCallOf storage r]) ∧
    (synthesizePipeline [] (fun _ => [1]) { text := "", voiceId := "default-male" }).1 =
      .ok ⟨"data:audio/wav;base64,AQ=="⟩ := by
  refine ⟨?_, ?_, rfl⟩
  · intro storage engine r hbad
    have hval : ttsRequestValid r = false := by
      rcases hbad with ⟨s, hs, h | h⟩ | ⟨v, hv, h | h⟩
      · have hns : ¬ ((1 : ℚ)/2 ≤ s) := not_le.mpr h
        simp only [ttsRequestValid, hs]
        rw [decide_eq_false hns]
        simp
      · have hns : ¬ (s ≤ (2 : ℚ)) := not_le.mpr h
        simp only [ttsRequestValid, hs]
        rw [decide_eq_false hns]
        simp
      · have hnv : ¬ ((0 : ℚ) ≤ v) := not_le.mpr h
        simp only [ttsRequestValid, hv]
        rw [decide_eq_false hnv]
        simp
      · have hnv : ¬ (v ≤ (1 : ℚ)) := not_le.mpr h
        simp only [ttsRequestValid, hv]
        rw [decide_eq_false hnv]
        simp
    simp only [synthesizePipeline, generate_tts_endpoint, hval,
      Bool.false_eq_true, if_false, generateSpeechFlowResult]
    rfl
  · intro storage engine r hval
    simp only [synthesizePipeline, generate_tts_endpoint, hval, if_true, ttsHandler]
    split <;> rfl

/-- **C2** witness: a request with speed 3 (outside [0.5, 2.0]) fails
with the 422 validation error and issues no engine call. -/
theorem C2_validation_witness :
    synthesizePipeline [] (fun _ => [1])
      { text := "hi", voiceId := "default-male", speed := some 3 } =
      (.error "External TTS API request failed with status 422: request validation failed",
       []) :=
  C2_validation.1 [] (fun _ => [1])
    { text := "hi", voiceId := "default-male", speed := some 3 }
    (Or.inl ⟨3, rfl, Or.inr (by norm_num)⟩)

/-! ## C3/C4: voice resolution never fails -/

/-- Every `audio/wav` data URI produced by the backend passes the flow's
`startsWith('data:audio')` check, whatever the bytes. -/
theorem encode_wav_data_audio (audioBytes : List Nat) :
    strStartsWith (encode_audio_to_data_uri audioBytes "audio/wav") "data:audio" = true :=
  rfl

/-- **C3** counterexample: a request whose `voiceId` (`"ghost"`) is not
registered anywhere succeeds — the engine is called (with the default
speaker) and audio is returned, where the claim requires failure with
`UnknownVoice` and no engine call. -/
theorem C3_counterexample :
    synthesizePipeline [] (fun _ => [1]) { text := "hello", voiceId := "ghost" } =
      (.ok ⟨"data:audio/wav;base64,AQ=="⟩,
       [{ text := "hello", speakerWav := none, speed := 1 }]) := by
  rfl

/-- **C3** (corrected). A well-formed request with an unknown `voiceId`
does not fail: speaker resolution falls back to `none` (the engine's
default speaker), exactly one engine call is issued, and when the engine
produces audio the result is returned as success. -/
theorem C3_unknown_voice (storage : List String) (engine : EngineCall → List Nat)
    (r : TTSRequest) (hval : ttsRequestValid r = true)
    (habsent : resolveSpeaker storage r.voiceId = none) :
    (synthesizePipeline storage engine r).2 =
      [{ text := r.text, speakerWav := none, speed := r.speed.getD 1 }] ∧
    (engine { text := r.text, speakerWav := none, speed := r.speed.getD 1 } ≠ [] →
      (synthesizePipeline storage engine r).1 =
        .ok ⟨encode_audio_to_data_uri
          (engine { text := r.text, speakerWav := none, speed := r.speed.getD 1 })
          "audio/wav"⟩) := by
  have hcall : engineCallOf storage r =
      { text := r.text, speakerWav := none, speed := r.speed.getD 1 } := by
    simp [engineCallOf, habsent]
  constructor
  · simp only [synthesizePipeline, generate_tts_endpoint, hval, if_true, ttsHandler, hcall]
    split <;> rfl
  · intro hne
    have hemp : (engine ⟨r.text, none, r.speed.getD 1⟩).isEmpty = false := by
      simpa [List.isEmpty_iff] using hne
    simp only [synthesizePipeline, generate_tts_endpoint, hval, if_true, ttsHandler,
      hcall, hemp, Bool.false_eq_true, if_false, generateSpeechFlowResult,
      encode_wav_data_audio, if_true]

/-- **C3** witness: concrete unknown voice, engine producing one byte. -/
theorem C3_unknown_voice_witness :
    (synthesizePipeline [] (fun _ => [1]) { text := "hey", voiceId := "nobody" }).2 =
      [{ text := "hey", speakerWav := none, speed := 1 }] :=
  (C3_unknown_voice [] (fun _ => [1]) { text := "hey", voiceId := "nobody" }
    (by decide) (by decide)).1

/-- **C4** counterexample: a trained-style identity
(`"My_Voice_abc123"`) whose reference audio is absent from storage is
not rejected at resolution time — synthesis proceeds on the engine's
default speaker and returns success, where the claim requires the
identity to be unusable. -/
theorem C4_counterexample :
    synthesizePipeline ["trained_models/other_111111/reference.wav"] (fun _ => [7])
      { text := "hi", voiceId := "My_Voice_abc123" } =
      (.ok ⟨"data:audio/wav;base64,Bw=="⟩,
       [{ text := "hi", speakerWav := none, speed := 1 }]) := by
  rfl

/-- **C4** (corrected). When a trained identity's reference audio
(`trained_models/<id>/reference.{wav,mp3,ogg}`) does not exist in
storage, the backend does not fail: it substitutes the engine default
speaker (`speaker_wav = None`) and issues the engine call anyway — the
unusability invariant is not enforced at resolution time. -/
theorem C4_missing_reference (storage : List String) (engine : EngineCall → List Nat)
    (r : TTSRequest) (hval : ttsRequestValid r = true)
    (hnotdefault : strStartsWith r.voiceId "default-" = false)
    (hwav : MODEL_STORAGE_PATH ++ "/" ++ r.voiceId ++ "/reference." ++ "wav" ∉ storage)
    (hmp3 : MODEL_STORAGE_PATH ++ "/" ++ r.voiceId ++ "/reference." ++ "mp3" ∉ storage)
    (hogg : MODEL_STORAGE_PATH ++ "/" ++ r.voiceId ++ "/reference." ++ "ogg" ∉ storage) :
    (generate_tts_endpoint storage engine r).2 =
      [{ text := r.text, speakerWav := none, speed := r.speed.getD 1 }] := by
  have habsent : resolveSpeaker storage r.voiceId = none := by
    simp only [resolveSpeaker, hnotdefault, Bool.false_eq_true, if_false]
    rw [if_neg hwav, if_neg hmp3, if_neg hogg]
  have hcall : engineCallOf storage r =
      { text := r.text, speakerWav := none, speed := r.speed.getD 1 } := by
    simp [engineCallOf, habsent]
  simp only [generate_tts_endpoint, hval, if_true, ttsHandler, hcall]
  split <;> rfl

/-- **C4** witness: concrete trained id with different audio stored. -/
theorem C4_missing_reference_witness :
    (generate_tts_endpoint ["trained_models/other_111111/reference.wav"]
      (fun _ => [7]) { text := "hi", voiceId := "My_Voice_abc123" }).2 =
      [{ text := "hi", speakerWav := none, speed := 1 }] :=
  C4_missing_reference ["trained_models/other_111111/reference.wav"] (fun _ => [7])
    { text := "hi", voiceId := "My_Voice_abc123" }
    (by decide) (by decide) (by decide) (by decide) (by decide)

/-! ## C5: payload validation -/

/-- **C5** (confirmed). For every engine result: an empty byte sequence
makes synthesis fail (HTTP 500 surfaced by the flow as an error, never
success); and every successful result carries exactly the engine's
nonzero-length bytes encoded as an `audio/wav` data URI, which passes
the flow's `data:audio` MIME check. -/
theorem C5_payload_validation (storage : List String) (engine : EngineCall → List Nat)
    (r : TTSRequest) (hval : ttsRequestValid r = true) :
    (engine (engineCallOf storage r) = [] →
      (synthesizePipeline storage engine r).1 =
        .error "External TTS API request failed with status 500: TTS generation failed: No audio data produced.") ∧
    (∀ out, (synthesizePipeline storage engine r).1 = .ok out →
      engine (engineCallOf storage r) ≠ [] ∧
      out.audioDataUri =
        encode_audio_to_data_uri (engine (engineCallOf storage r)) "audio/wav" ∧
      strStartsWith out.audioDataUri "data:audio" = true) := by
  constructor
  · intro hemp
    simp only [synthesizePipeline, generate_tts_endpoint, hval, if_true, ttsHandler,
      hemp, List.isEmpty_nil, if_true, generateSpeechFlowResult]
    rfl
  · intro out hok
    by_cases hemp : engine (engineCallOf storage r) = []
    · exfalso
      simp only [synthesizePipeline, generate_tts_endpoint, hval, if_true, ttsHandler,
        hemp, List.isEmpty_nil, if_true, generateSpeechFlowResult] at hok
      exact Except.noConfusion hok
    · have hne : (engine (engineCallOf storage r)).isEmpty = false := by
        simpa [List.isEmpty_iff] using hemp
      simp only [synthesizePipeline, generate_tts_endpoint, hval, if_true, ttsHandler,
        hne, Bool.false_eq_true, if_false, generateSpeechFlowResult,
        encode_wav_data_audio, if_true, Except.ok.injEq] at hok
      subst hok
      exact ⟨hemp, rfl, encode_wav_data_audio _⟩

/-- **C5** witness: an engine returning no bytes makes the concrete
request fail with the 500 error surfaced. -/
theorem C5_payload_validation_witness :
    (synthesizePipeline [] (fun _ => []) { text := "hi", voiceId := "default-male" }).1 =
      .error "External TTS API request failed with status 500: TTS generation failed: No audio data produced." :=
  (C5_payload_validation [] (fun _ => []) { text := "hi", voiceId := "default-male" }
    (by decide)).1 rfl

/-! ## C7: model-name sanitization and id minting -/

theorem string_data_append (s t : String) : (s ++ t).data = s.data ++ t.data := by
  cases s; cases t; rfl

theorem pyStrip_subset (l : List Char) : ∀ c ∈ pyStrip l, c ∈ l := by
  intro c hc
  unfold pyStrip at hc
  rw [List.mem_reverse] at hc
  have h1 := List.dropWhile_subset (l := (l.dropWhile pyIsSpace).reverse) pyIsSpace hc
  rw [List.mem_reverse] at h1
  exact List.dropWhile_subset pyIsSpace h1

/-- What the claim's words describe: keep only alphanumerics, space,
underscore, hyphen (dropping everything else), collapsing an empty
result to `"unnamed_model"`. Stated for comparison with the code's
`saneModelName`, which substitutes `'_'` instead of dropping. -/
def claimSanitizedName (name : String) : String :=
  let kept := name.data.filter fun c => pyIsAlnum c || c == ' ' || c == '_' || c == '-'
  if kept.isEmpty then "unnamed_model" else String.mk kept

/-- **C7** counterexample: sanitization does not "keep only" the allowed
characters — it replaces each disallowed character with `'_'` (so
`"a.b"` becomes `"a_b"`, not `"ab"`), and spaces are converted to
underscores rather than kept (`"My Voice"` becomes `"My_Voice"`). -/
theorem C7_counterexample :
    saneModelName "a.b" = "a_b" ∧ claimSanitizedName "a.b" = "ab" ∧
    saneModelName "a.b" ≠ claimSanitizedName "a.b" ∧
    saneModelName "My Voice" = "My_Voice" := by
  decide

/-- **C7** (corrected). Sanitization substitutes `'_'` for every
character outside alphanumerics/space/underscore/hyphen, strips
surrounding whitespace, then replaces spaces with underscores: the
result consists only of alphanumerics, `'_'` and `'-'`, is never empty
(collapsing to `"unnamed_model"`), and the minted id
`sanitized + "_" + suffix` is distinct for distinct suffixes, so
repeated model names still yield distinct ids. -/
theorem C7_sanitize_and_mint :
    (∀ name : String, ∀ c ∈ (saneModelName name).data,
      pyIsAlnum c = true ∨ c = '_' ∨ c = '-') ∧
    (∀ name : String, saneModelName name ≠ "") ∧
    saneModelName "" = "unnamed_model" ∧
    (∀ name s₁ s₂ : String, s₁ ≠ s₂ →
      mintedModelId name s₁ ≠ mintedModelId name s₂) := by
  refine ⟨?_, ?_, by decide, ?_⟩
  · intro name c hc
    unfold saneModelName at hc
    by_cases hemp : (pyStrip (name.data.map fun c =>
        if pyIsAlnum c || c == ' ' || c == '_' || c == '-' then c else '_')).map
        (fun c => if c == ' ' then '_' else c) |>.isEmpty
    · rw [if_pos hemp] at hc
      revert c
      decide
    · rw [if_neg hemp] at hc
      rcases List.mem_map.mp hc with ⟨x, hx, hxc⟩
      have hxj := pyStrip_subset _ x hx
      rcases List.mem_map.mp hxj with ⟨y, _, hyx⟩
      subst hxc
      subst hyx
      by_cases hy : pyIsAlnum y || y == ' ' || y == '_' || y == '-'
      · rw [if_pos hy]
        by_cases hsp : y == ' '
        · rw [if_pos hsp]; right; left; rfl
        · rw [if_neg hsp]
          rcases Bool.or_eq_true _ _ |>.mp hy with h | h
          · rcases Bool.or_eq_true _ _ |>.mp h with h | h
            · rcases Bool.or_eq_true _ _ |>.mp h with h | h
              · exact Or.inl h
              · exact absurd h hsp
            · right; left; exact eq_of_beq h
          · right; right; exact eq_of_beq h
      · rw [if_neg hy]
        have : ('_' == ' ') = false := by decide
        rw [this]; simp
  · intro name
    unfold saneModelName
    by_cases hemp : (pyStrip (name.data.map fun c =>
        if pyIsAlnum c || c == ' ' || c == '_' || c == '-' then c else '_')).map
        (fun c => if c == ' ' then '_' else c) |>.isEmpty
    · rw [if_pos hemp]; decide
    · rw [if_neg hemp]
      intro h
      apply hemp
      rw [List.isEmpty_iff]
      exact congrArg String.data h
  · intro name s₁ s₂ hne heq
    apply hne
    have hd := congrArg String.data heq
    rw [mintedModelId, mintedModelId] at hd
    simp only [string_data_append] at hd
    have hd2 := List.append_cancel_left hd
    cases s₁; cases s₂
    exact congrArg String.mk hd2

/-- **C7** witness: distinct suffixes give distinct minted ids for the
same model name. -/
theorem C7_sanitize_and_mint_witness :
    mintedModelId "My Voice" "0a1b2c" ≠ mintedModelId "My Voice" "3d4e5f" :=
  C7_sanitize_and_mint.2.2.2 "My Voice" "0a1b2c" "3d4e5f" (by decide)

/-! ## C8: training sample validation -/

/-- **C8** counterexample: a sample whose MIME type (`audio/flac`) is
outside the wav/mpeg/mp3(/ogg) allow-list is accepted by
`train_voice_endpoint` — it is persisted (with a fallback `.wav`
extension) and training reports success, where the claim requires
`InvalidAudioSample` and no persistence. -/
theorem C8_counterexample :
    train_voice_endpoint "abc123"
      { modelName := "m", audioDataUri := "data:audio/flac;base64,QQ==" } =
      (.ok { trainingStatus := "completed", modelId := some "m_abc123" },
       [("trained_models/m_abc123/reference.wav", [65])]) := by
  rfl

/-- **C8** (corrected). The 5MB size cap and the wav/mpeg/mp3 allow-list
are enforced only client-side: `handleFileChange` refuses oversized or
disallowed files before any request exists. The endpoint itself rejects
exactly the payloads whose MIME type does not start with `audio/`
(HTTP 400, nothing persisted) and accepts any size and any `audio/*`
type. -/
theorem C8_sample_validation :
    (∀ f : UploadedFile, f.size > 5 * 1024 * 1024 → handleFileChange f = none) ∧
    (∀ f : UploadedFile, f.mimeType ≠ "audio/wav" → f.mimeType ≠ "audio/mpeg" →
      f.mimeType ≠ "audio/mp3" → handleFileChange f = none) ∧
    (∀ (suffix : String) (r : TrainVoiceRequest) (audioBytes : List Nat) (mime : String),
      decode_data_uri r.audioDataUri = some (audioBytes, mime) →
      strStartsWith mime "audio/" = false →
      train_voice_endpoint suffix r =
        (.error (.http 400 ("Invalid audio file type: " ++ mime ++
          ". Please use WAV or MP3.")), [])) := by
  refine ⟨?_, ?_, ?_⟩
  · intro f hsize
    simp [handleFileChange, hsize]
  · intro f h1 h2 h3
    simp [handleFileChange, h1, h2, h3]
  · intro suffix r audioBytes mime hdec hmime
    simp [train_voice_endpoint, hdec, hmime]

/-- **C8** witness: a 6MB wav file is refused client-side. -/
theorem C8_sample_validation_witness :
    handleFileChange ⟨"big.wav", 6 * 1024 * 1024, "audio/wav"⟩ = none :=
  C8_sample_validation.1 ⟨"big.wav", 6 * 1024 * 1024, "audio/wav"⟩ (by norm_num)

/-! ## C9: registry duplicates -/

/-- **C9** counterexample: registering a voice whose id collides with
the built-in `default-male` does not fail with `DuplicateVoice` — the
operation silently succeeds and returns the registry unchanged. -/
theorem C9_counterexample :
    addVoice initialVoices ⟨"default-male", "Другой"⟩ = initialVoices := by
  decide

/-- **C9** (corrected). A voice whose id collides with an existing entry
(built-in or trained) is silently ignored: `addVoice` returns the list
unchanged and surfaces no error; and no existing entry (in particular no
built-in) is ever removed or overwritten by a registration. -/
theorem C9_duplicate_silently_ignored :
    (∀ (vs : List Voice) (v : Voice), (∃ w ∈ vs, w.id = v.id) →
      addVoice vs v = vs) ∧
    (∀ (vs : List Voice) (v w : Voice), w ∈ vs → w ∈ addVoice vs v) := by
  constructor
  · intro vs v ⟨w, hw, hid⟩
    have hany : vs.any (fun x => x.id == v.id) = true :=
      List.any_eq_true.mpr ⟨w, hw, by simp [hid]⟩
    simp [addVoice, hany]
  · intro vs v w hw
    unfold addVoice
    split
    · exact hw
    · exact List.mem_append_left _ hw

/-- **C9** witness: the concrete duplicate registration leaves the
built-in registry unchanged. -/
theorem C9_duplicate_silently_ignored_witness :
    addVoice initialVoices ⟨"default-male", "Копия"⟩ = initialVoices :=
  C9_duplicate_silently_ignored.1 initialVoices ⟨"default-male", "Копия"⟩
    ⟨⟨"default-male", "Стандартный мужской"⟩, by decide, rfl⟩

/-! ## C10: placeholder flow is constant -/

/-- **C10** (confirmed). The placeholder `generateSpeechFlow` in
`voice-generation.ts` returns the fixed data URI
`data:audio/wav;base64,UklGRiwAAABXQVZFZm10IBAAAAABAAEARKwAAIhUAAABAAgAZGF0YQAAAAA=`
for every input — the output is independent of text, voiceId, speed and
variability, and the function performs no engine call (it is a pure
constant). -/
theorem C10_placeholder_constant :
    ∀ input : TTSRequest,
      (placeholderGenerateSpeechFlow input).audioDataUri =
        "data:audio/wav;base64,UklGRiwAAABXQVZFZm10IBAAAAABAAEARKwAAIhUAAABAAgAZGF0YQAAAAA=" ∧
      ∀ other : TTSRequest,
        placeholderGenerateSpeechFlow input = placeholderGenerateSpeechFlow other :=
  fun _ => ⟨rfl, fun _ => rfl⟩

end VoiceForge
